import Mathlib

/-!
# Verification of the crane-collision-warning browser client

Shallow embedding of the two core modules of the repository:

* the Three.js scene-reconciliation module (source file `part_000`:
  `createCraneObject`, `updateCraneObject`, `updateWarningLines`,
  `updateThreeScene`), and
* the WebSocket transport module (`static/js/websocket-client.js`:
  `connectWebSocket`, `scheduleReconnect`, and the `onopen` / `onclose` /
  `onerror` / `onmessage` handlers).

Conventions of the embedding:

* JavaScript numbers are modelled as rationals (`ℚ`).
* Rotation fields store the rational coefficient of π: a stored value `r`
  stands for the render-engine rotation `r·π` radians.  The source writes
  `-craneData.slew_angle * (Math.PI / 180)`, which becomes the coefficient
  `-slew_angle / 180`.
* The `craneObjects` JavaScript object is modelled as an association list
  `List (String × CraneObject)` in insertion order (JS objects preserve
  insertion order for non-index string keys); `craneObjects[id] = v` on a
  missing key appends, `delete` filters, property access is `lookupKey`.
* `tipMesh.getWorldPosition` is a capability of the render engine (out of
  scope per the spec); the world position of a tip is a function of the
  object's transform hierarchy, so it is modelled by the tuple of exactly
  those parameters (`TipPos`).
* Absent JSON fields are `Option`; `x || []` / `x?.y || {}` become `getD`.
-/

-- ============================================================
-- Alert levels and color tables (part_000 lines 37-51)
-- ============================================================

/-- Alert severity enumeration `{NORMAL, CAUTION, WARNING, DANGER}`
(ordered `NORMAL < CAUTION < WARNING < DANGER` per the data model). -/
inductive AlertLevel where
  | NORMAL
  | CAUTION
  | WARNING
  | DANGER
deriving DecidableEq

/-- `CRANE_COLORS` (part_000 line 37). -/
def CRANE_COLORS : List Nat :=
  [0x4a90d9, 0xe67e22, 0x2ecc71, 0x9b59b6, 0xe74c3c, 0x1abc9c]

/-- `ALERT_LEVEL_COLORS` (part_000 line 46).  Total on the enumeration, and
every value is nonzero, so the JS fallbacks `|| obj.color` / `|| 0xFFFFFF`
never trigger for an enumeration value. -/
def ALERT_LEVEL_COLORS : AlertLevel → Nat
  | .NORMAL => 0x00CC00
  | .CAUTION => 0xFFD700
  | .WARNING => 0xFF8C00
  | .DANGER => 0xFF0000

-- ============================================================
-- Wire data model (spec §6; fields as consumed by the client)
-- ============================================================

/-- One crane entry of a snapshot's `cranes` array. -/
structure CraneData where
  id : String
  name : String
  base_x : ℚ
  base_y : ℚ
  mast_height : ℚ
  boom_length : ℚ
  slew_angle : ℚ
  slew_speed : ℚ
  luffing_angle : ℚ
  working_radius : ℚ
deriving DecidableEq

/-- One pairwise collision record of a snapshot's `collisions` array. -/
structure Collision where
  crane_a_id : String
  crane_b_id : String
  current_distance : ℚ
  boom_tip_distance : ℚ
  time_to_collision : Option ℚ
  alert_level : AlertLevel
deriving DecidableEq

/-- The `status` sub-object of a snapshot; `crane_alerts` may be absent. -/
structure StatusData where
  crane_alerts : Option (List (String × AlertLevel))
deriving DecidableEq

/-- A world-state snapshot as consumed by `updateThreeScene`; every field may
be absent in the received JSON, modelled by `Option`. -/
structure Snapshot where
  status : Option StatusData
  cranes : Option (List CraneData)
  collisions : Option (List Collision)
deriving DecidableEq

-- ============================================================
-- Visual objects (part_000 lines 191-323)
-- ============================================================

/-- The visual object stored in `craneObjects[id]` (part_000 lines 275-285),
restricted to the mutable scene-graph state the module ever reads or writes:
the group position set at creation, the stored geometry parameters, the
assigned crane color, the boom group rotations, and the tip / working-radius
material state.  `rotY` / `rotZ` store coefficients of π (see header). -/
@[ext]
structure CraneObject where
  posX : ℚ
  posZ : ℚ
  mastHeight : ℚ
  boomLength : ℚ
  color : Nat
  rotY : ℚ
  rotZ : ℚ
  tipColor : Nat
  radiusColor : Nat
  radiusOpacity : ℚ
deriving DecidableEq

/-- `CRANE_COLORS[colorIndex % CRANE_COLORS.length]` (part_000 line 192). -/
def craneColorOf (colorIndex : Nat) : Nat :=
  CRANE_COLORS.getD (colorIndex % CRANE_COLORS.length) 0

/-- `createCraneObject` (part_000 lines 191-286): builds the group at
`(base_x, 0, base_y)` (domain Y becomes render Z), boom rotations zero,
tip marker white (`0xffffff`), radius indicator in the crane color with
opacity `0.15`. -/
def createCraneObject (craneData : CraneData) (colorIndex : Nat) : CraneObject :=
  { posX := craneData.base_x
    posZ := craneData.base_y
    mastHeight := craneData.mast_height
    boomLength := craneData.boom_length
    color := craneColorOf colorIndex
    rotY := 0
    rotZ := 0
    tipColor := 0xffffff
    radiusColor := craneColorOf colorIndex
    radiusOpacity := 3/20 }

/-- Slew mapping (part_000 line 301): `-craneData.slew_angle * (Math.PI / 180)`,
expressed as the coefficient of π. -/
def slewRotY (a : ℚ) : ℚ := -a / 180

/-- Luffing mapping (part_000 line 305): `craneData.luffing_angle * (Math.PI / 180)`,
expressed as the coefficient of π (no sign flip in the source). -/
def luffRotZ (a : ℚ) : ℚ := a / 180

/-- `updateCraneObject` (part_000 lines 294-323), acting on an object known to
be present (the `if (!obj) return` guard is handled at the call site, where the
object was just created if missing).  `alertLevel` is
`craneAlerts[craneData.id]`, possibly absent. -/
def updateCraneObject (o : CraneObject) (craneData : CraneData)
    (alertLevel : Option AlertLevel) : CraneObject :=
  let o1 : CraneObject :=
    { o with rotY := slewRotY craneData.slew_angle
             rotZ := luffRotZ craneData.luffing_angle }
  match alertLevel with
  | some lvl =>
    if lvl = AlertLevel.NORMAL then
      { o1 with tipColor := 0xffffff, radiusColor := o1.color, radiusOpacity := 3/20 }
    else
      let alertColor := ALERT_LEVEL_COLORS lvl
      let o2 := { o1 with tipColor := alertColor }
      if lvl = AlertLevel.DANGER ∨ lvl = AlertLevel.WARNING then
        { o2 with radiusColor := alertColor, radiusOpacity := 1/4 }
      else o2
  | none =>
      { o1 with tipColor := 0xffffff, radiusColor := o1.color, radiusOpacity := 3/20 }

-- ============================================================
-- Association-list access (JS object property access)
-- ============================================================

/-- `obj[id]` on a JS object modelled as an association list. -/
def lookupKey {β : Type} (id : String) : List (String × β) → Option β
  | [] => none
  | p :: m => if p.1 = id then some p.2 else lookupKey id m

/-- In-place mutation `obj[id] = f (obj[id])` of an existing key. -/
def updateAt {β : Type} (id : String) (f : β → β) (m : List (String × β)) :
    List (String × β) :=
  m.map (fun p => if p.1 = id then (p.1, f p.2) else p)

-- ============================================================
-- Warning overlay (part_000 lines 330-373)
-- ============================================================

/-- The data determining `tipMesh.getWorldPosition`: the render engine computes
the world position from the group translation, the boom pivot height, the boom
group rotations and the tip's local offset `(boomLength, 0, 0)`.  The engine
itself is out of scope, so the position is identified with this parameter
tuple. -/
structure TipPos where
  baseX : ℚ
  baseZ : ℚ
  mastHeight : ℚ
  boomLength : ℚ
  rotY : ℚ
  rotZ : ℚ
deriving DecidableEq

/-- World position of an object's tip marker (see `TipPos`). -/
def tipWorldPos (o : CraneObject) : TipPos :=
  { baseX := o.posX
    baseZ := o.posZ
    mastHeight := o.mastHeight
    boomLength := o.boomLength
    rotY := o.rotY
    rotZ := o.rotZ }

/-- One dashed warning line pushed into `warningLines` (part_000 368-371). -/
structure WarningLine where
  posA : TipPos
  posB : TipPos
  color : Nat
  dashed : Bool
deriving DecidableEq

/-- `updateWarningLines` (part_000 lines 332-373): clears the previous lines
and rebuilds the array from the collision records, skipping `NORMAL` pairs and
pairs with a missing endpoint object.  `ALERT_LEVEL_COLORS[..] || 0xFFFFFF`
equals the table value for every enumeration value (all nonzero). -/
def updateWarningLines (craneObjects : List (String × CraneObject))
    (collisions : List Collision) : List WarningLine :=
  collisions.foldl (fun acc collision =>
    if collision.alert_level = AlertLevel.NORMAL then acc
    else
      match lookupKey collision.crane_a_id craneObjects,
            lookupKey collision.crane_b_id craneObjects with
      | some objA, some objB =>
          acc ++ [{ posA := tipWorldPos objA
                    posB := tipWorldPos objB
                    color := ALERT_LEVEL_COLORS collision.alert_level
                    dashed := true }]
      | some _, none => acc
      | none, _ => acc) []

-- ============================================================
-- Scene state and reconciliation (part_000 lines 385-410)
-- ============================================================

/-- The module-level mutable state of the Three.js module that
`updateThreeScene` reads or writes: the `isInitialized` flag (named `isInit`
here), the `craneObjects` mapping and the `warningLines` array. -/
structure SceneState where
  isInit : Bool
  craneObjects : List (String × CraneObject)
  warningLines : List WarningLine
deriving DecidableEq

/-- The `cranes.forEach((craneData, index) => ...)` loop of `updateThreeScene`
(part_000 lines 393-398), over the index-paired crane list.  Returns the new
mapping together with the list of ids for which `createCraneObject` ran. -/
def processCranes (craneAlerts : List (String × AlertLevel)) :
    List (String × CraneObject) → List (Nat × CraneData) →
    List (String × CraneObject) × List String
  | m, [] => (m, [])
  | m, ic :: rest =>
    let created := (lookupKey ic.2.id m).isNone
    let m1 := if created then m ++ [(ic.2.id, createCraneObject ic.2 ic.1)] else m
    let m2 := updateAt ic.2.id
      (fun o => updateCraneObject o ic.2 (lookupKey ic.2.id craneAlerts)) m1
    let r := processCranes craneAlerts m2 rest
    (r.1, (if created then [ic.2.id] else []) ++ r.2)

/-- The ids removed by the deletion loop of `updateThreeScene`
(part_000 lines 401-406): live ids with no matching crane in the snapshot. -/
def removedIds (m : List (String × CraneObject)) (cranes : List CraneData) :
    List String :=
  (m.filter (fun p => !(cranes.any (fun c => c.id == p.1)))).map Prod.fst

/-- The body of `updateThreeScene` after its guard (part_000 lines 388-409):
defaulted field reads, the create/update loop, the deletion loop, and the
overlay rebuild.  Also returns the created ids and the removed ids, which in
the source correspond to `createCraneObject` calls and `scene.remove`/`delete`
pairs. -/
def reconcile (st : SceneState) (state : Snapshot) :
    SceneState × List String × List String :=
  let cranes := state.cranes.getD []
  let collisions := state.collisions.getD []
  let craneAlerts := (state.status.bind StatusData.crane_alerts).getD []
  let pr := processCranes craneAlerts st.craneObjects cranes.enum
  let m2 := pr.1.filter (fun p => cranes.any (fun c => c.id == p.1))
  ({ st with craneObjects := m2, warningLines := updateWarningLines m2 collisions },
   pr.2, removedIds pr.1 cranes)

/-- `updateThreeScene` (part_000 lines 385-410), including the
`if (!isInitialized || !state) return;` guard. -/
def updateThreeScene (st : SceneState) (state : Option Snapshot) : SceneState :=
  if st.isInit = false then st
  else
    match state with
    | none => st
    | some s => (reconcile st s).1

-- ============================================================
-- Per-id view of the create/update loop (for the proofs)
-- ============================================================

/-- The cumulative effect of the `forEach` loop on one id: every loop step
whose crane carries this id applies `updateCraneObject` with that crane's
data and alert level, every other step leaves the object alone. -/
def applyUpdates (craneAlerts : List (String × AlertLevel)) (id : String)
    (l : List (Nat × CraneData)) (o : CraneObject) : CraneObject :=
  l.foldl (fun o ic =>
    if ic.2.id = id then updateCraneObject o ic.2 (lookupKey ic.2.id craneAlerts)
    else o) o

/-- Creation-time fields: placement and geometry written only by
`createCraneObject` (root position, mast height, boom length, crane color). -/
def statOf (o : CraneObject) : ℚ × ℚ × ℚ × ℚ × Nat :=
  (o.posX, o.posZ, o.mastHeight, o.boomLength, o.color)

/-- Working-radius material state (color, opacity). -/
def radOf (o : CraneObject) : Nat × ℚ :=
  (o.radiusColor, o.radiusOpacity)

/-- Boom pose and tip marker color. -/
def rtOf (o : CraneObject) : ℚ × ℚ × Nat :=
  (o.rotY, o.rotZ, o.tipColor)

-- ============================================================
-- Transport channel (websocket-client.js)
-- ============================================================

/-- `ws.readyState` abstraction: CONNECTING / OPEN / CLOSED. -/
inductive ReadyState where
  | conn
  | opened
  | closed
deriving DecidableEq

/-- A successfully parsed inbound frame (`JSON.parse` succeeded).  The parsed
object is inspected for an `error` field and an `ack` marker, and otherwise
treated wholesale as a snapshot; all three views are carried here. -/
structure ParsedMsg where
  errorField : Option String
  ackField : Bool
  snap : Snapshot
deriving DecidableEq

/-- An inbound frame: either unparseable, or a parsed message. -/
inductive Frame where
  | malformed
  | wellFormed (msg : ParsedMsg)
deriving DecidableEq

/-- Observable side effects of the transport handlers. -/
inductive WSAction where
  | notifyStatus (connected : Bool)
  | scheduleTimer (delayMs : Nat)
  | cancelTimer
  | newSocket
  | logError
  | logWarn
  | dispatch
deriving DecidableEq

/-- The module-level mutable state of `websocket-client.js`: the socket handle
with its ready state (`none` = `ws === null`), `isConnected`,
the `reconnectTimer` variable (`true` = non-null), the number of reconnect
timers actually pending in the host (to express "at most one pending"),
`lastData`, and the rendered scene the dispatch pipeline writes into. -/
structure WSClientState where
  ws : Option ReadyState
  isConnected : Bool
  reconnectTimer : Bool
  pendingTimers : Nat
  lastData : Option ParsedMsg
  sceneSt : SceneState
deriving DecidableEq

/-- `RECONNECT_INTERVAL = 3000` (websocket-client.js line 39). -/
def RECONNECT_INTERVAL : Nat := 3000

/-- `scheduleReconnect` (lines 123-131): no-op when a timer is already
recorded, otherwise start one timer after `RECONNECT_INTERVAL`. -/
def scheduleReconnect (s : WSClientState) : WSClientState × List WSAction :=
  if s.reconnectTimer then (s, [])
  else ({ s with reconnectTimer := true, pendingTimers := s.pendingTimers + 1 },
        [.scheduleTimer RECONNECT_INTERVAL])

/-- `connectWebSocket` (lines 48-118): return if the socket exists and is
OPEN; otherwise construct a new socket (CONNECTING) — `ctorFails` models the
`new WebSocket` constructor throwing, in which case `ws` keeps its old value
and a reconnect is scheduled. -/
def connectWebSocket (s : WSClientState) (ctorFails : Bool) :
    WSClientState × List WSAction :=
  if s.ws = some ReadyState.opened then (s, [])
  else if ctorFails then
    let r := scheduleReconnect s
    (r.1, WSAction.logError :: r.2)
  else ({ s with ws := some ReadyState.conn }, [.newSocket])

/-- `ws.onopen` (lines 67-77): mark connected, show the connected status, and
cancel the reconnect timer when one is recorded. -/
def onOpen (s : WSClientState) : WSClientState × List WSAction :=
  let s1 := { s with ws := some ReadyState.opened, isConnected := true }
  if s1.reconnectTimer then
    ({ s1 with reconnectTimer := false, pendingTimers := s1.pendingTimers - 1 },
     [.notifyStatus true, .cancelTimer])
  else (s1, [.notifyStatus true])

/-- `ws.onclose` (lines 105-110): mark disconnected, show the disconnected
status, and call `scheduleReconnect`. -/
def onClose (s : WSClientState) : WSClientState × List WSAction :=
  let s1 := { s with ws := some ReadyState.closed, isConnected := false }
  let r := scheduleReconnect s1
  (r.1, WSAction.notifyStatus false :: r.2)

/-- `ws.onerror` (lines 113-117): mark disconnected and show the disconnected
status; the handler does not touch the reconnect timer. -/
def onError (s : WSClientState) : WSClientState × List WSAction :=
  ({ s with isConnected := false }, [.notifyStatus false])

/-- The reconnect timer firing (the callback of lines 126-130): clear the
`reconnectTimer` variable, then `connectWebSocket()`. -/
def onTimerFire (s : WSClientState) (ctorFails : Bool) :
    WSClientState × List WSAction :=
  let s1 := { s with reconnectTimer := false, pendingTimers := s.pendingTimers - 1 }
  connectWebSocket s1 ctorFails

/-- JS truthiness of `data.error` (a present, non-empty string). -/
def errTruthy (e : Option String) : Bool :=
  match e with
  | some m => !m.isEmpty
  | none => false

/-- `ws.onmessage` (lines 80-102): a malformed payload makes `JSON.parse`
throw, so control jumps to the catch block (log only) before any assignment;
otherwise store `lastData`, then classify: error frame (log, no dispatch),
ack frame (silent), else dispatch — `onDataReceived` runs `updateThreeScene`
on the scene (main.js lines 59-72; the remaining consumers are the excluded
DOM panel writers). -/
def onMessage (s : WSClientState) (f : Frame) : WSClientState × List WSAction :=
  match f with
  | .malformed => (s, [.logError])
  | .wellFormed msg =>
    let s1 := { s with lastData := some msg }
    if errTruthy msg.errorField then (s1, [.logWarn])
    else if msg.ackField then (s1, [])
    else ({ s1 with sceneSt := updateThreeScene s1.sceneSt (some msg.snap) },
          [.dispatch])

/-- Scene state right after `initThreeScene` ran on page load. -/
def initialScene : SceneState :=
  { isInit := true, craneObjects := [], warningLines := [] }

/-- Transport state on page load, before `connectWebSocket()` is first
called. -/
def initState : WSClientState :=
  { ws := none, isConnected := false, reconnectTimer := false,
    pendingTimers := 0, lastData := none, sceneSt := initialScene }

/-- States the transport module can reach from page load: any interleaving of
`connect()` calls, socket open / close / error events, timer expiries and
inbound frames.  Close and error events are not guarded by the ready state:
the handlers run whenever the underlying transport fires them. -/
inductive Reachable : WSClientState → Prop where
  | init : Reachable initState
  | connectStep (s : WSClientState) (f : Bool) :
      Reachable s → Reachable (connectWebSocket s f).1
  | openStep (s : WSClientState) :
      Reachable s → s.ws = some ReadyState.conn → Reachable (onOpen s).1
  | closeStep (s : WSClientState) :
      Reachable s → Reachable (onClose s).1
  | errorStep (s : WSClientState) :
      Reachable s → Reachable (onError s).1
  | timerStep (s : WSClientState) (f : Bool) :
      Reachable s → 0 < s.pendingTimers → Reachable (onTimerFire s f).1
  | messageStep (s : WSClientState) (fr : Frame) :
      Reachable s → Reachable (onMessage s fr).1

/-- `n` consecutive close events. -/
def closeIter : Nat → WSClientState → WSClientState
  | 0, s => s
  | n + 1, s => closeIter n (onClose s).1

-- ============================================================
-- Derived definitions, spec-side descriptions and fixtures
-- ============================================================

/-- Tip color written by the update, a function of the level alone. -/
def tipColorOf (lvl : Option AlertLevel) : Nat :=
  match lvl with
  | some l => if l = AlertLevel.NORMAL then 0xffffff else ALERT_LEVEL_COLORS l
  | none => 0xffffff

/-- Radius material state written by a non-CAUTION update: a function of the
level and of the object's fixed assigned color alone. -/
def radForced (lvl : Option AlertLevel) (color : Nat) : Nat × ℚ :=
  match lvl with
  | some AlertLevel.DANGER => (0xFF0000, 1/4)
  | some AlertLevel.WARNING => (0xFF8C00, 1/4)
  | _ => (color, 3/20)

/-- The indicator contributed by one Collision record, as the spec words it:
one dashed line between the two entities' current tip positions, colored by
the pair's Alert Level — present exactly when the level is above NORMAL and
both entity ids are in the live mapping. -/
def warningLineFor (m : List (String × CraneObject)) (collision : Collision) :
    Option WarningLine :=
  if collision.alert_level = AlertLevel.NORMAL then none
  else
    match lookupKey collision.crane_a_id m, lookupKey collision.crane_b_id m with
    | some objA, some objB =>
        some { posA := tipWorldPos objA
               posB := tipWorldPos objB
               color := ALERT_LEVEL_COLORS collision.alert_level
               dashed := true }
    | some _, none => none
    | none, _ => none

/-- At most one reconnect timer is pending, and the `reconnectTimer` variable
records exactly whether one is. -/
def timerInv (s : WSClientState) : Prop :=
  s.pendingTimers ≤ 1 ∧ (s.reconnectTimer = true ↔ s.pendingTimers = 1)

def testCraneA : CraneData :=
  { id := "A", name := "Crane A", base_x := 10, base_y := 20, mast_height := 30,
    boom_length := 40, slew_angle := 0, slew_speed := 2, luffing_angle := 30,
    working_radius := 40 }

def testCraneB : CraneData :=
  { id := "B", name := "Crane B", base_x := 60, base_y := 20, mast_height := 25,
    boom_length := 35, slew_angle := 0, slew_speed := 1, luffing_angle := 0,
    working_radius := 35 }

def snapA : Snapshot :=
  { status := some { crane_alerts := some [("A", AlertLevel.NORMAL)] }
    cranes := some [testCraneA]
    collisions := some [] }

def snapB : Snapshot :=
  { status := some { crane_alerts := some [("B", AlertLevel.NORMAL)] }
    cranes := some [testCraneB]
    collisions := some [] }

def snapLvl (lvl : AlertLevel) : Snapshot :=
  { status := some { crane_alerts := some [("A", lvl)] }
    cranes := some [testCraneA]
    collisions := some [] }

def testCollision (lvl : AlertLevel) : Collision :=
  { crane_a_id := "A"
    crane_b_id := "B"
    current_distance := 12
    boom_tip_distance := 8
    time_to_collision := some 5
    alert_level := lvl }

def snapPair (lvl : AlertLevel) : Snapshot :=
  { status := some { crane_alerts := some [("A", lvl), ("B", lvl)] }
    cranes := some [testCraneA, testCraneB]
    collisions := some [testCollision lvl] }

/-- Extensional equality of scene states as the spec's properties read them:
same initialization flag, same Visual Object per id, same overlay. -/
def sceneEquiv (s1 s2 : SceneState) : Prop :=
  s1.isInit = s2.isInit ∧
  (∀ id, lookupKey id s1.craneObjects = lookupKey id s2.craneObjects) ∧
  s1.warningLines = s2.warningLines

def testCraneA2 : CraneData :=
  { id := "A", name := "Crane A moved", base_x := 99, base_y := 98,
    mast_height := 77, boom_length := 66, slew_angle := 90, slew_speed := 2,
    luffing_angle := 30, working_radius := 66 }

def snapA2 : Snapshot :=
  { status := some { crane_alerts := some [("A", AlertLevel.DANGER)] }
    cranes := some [testCraneA2]
    collisions := some [] }

def objA : CraneObject :=
  { posX := 10, posZ := 20, mastHeight := 30, boomLength := 40,
    color := 0x4a90d9, rotY := 0, rotZ := 1/6, tipColor := 0xffffff,
    radiusColor := 0x4a90d9, radiusOpacity := 3/20 }

def objA2 : CraneObject :=
  { posX := 10, posZ := 20, mastHeight := 30, boomLength := 40,
    color := 0x4a90d9, rotY := -(1/2), rotZ := 1/6, tipColor := 0xFF0000,
    radiusColor := 0xFF0000, radiusOpacity := 1/4 }

def sConn : WSClientState := (connectWebSocket initState false).1

def sOpen : WSClientState := (onOpen sConn).1

-- ============================================================
-- Association-list lemmas
-- ============================================================

lemma lookupKey_updateAt_self {β : Type} (id : String) (f : β → β)
    (m : List (String × β)) :
    lookupKey id (updateAt id f m) = (lookupKey id m).map f := by
  induction m with
  | nil => rfl
  | cons p t ih =>
    by_cases h : p.1 = id
    · simp [updateAt, lookupKey, h]
    · simpa [updateAt, lookupKey, h] using ih

lemma lookupKey_updateAt_ne {β : Type} {k id : String} (hne : k ≠ id)
    (f : β → β) (m : List (String × β)) :
    lookupKey id (updateAt k f m) = lookupKey id m := by
  induction m with
  | nil => rfl
  | cons p t ih =>
    by_cases h : p.1 = k
    · simpa [updateAt, lookupKey, h, hne, Ne.symm hne] using ih
    · by_cases h2 : p.1 = id
      · simp [updateAt, lookupKey, h, h2, Ne.symm hne]
      · simpa [updateAt, lookupKey, h, h2] using ih

lemma lookupKey_append {β : Type} (id : String) (m m' : List (String × β)) :
    lookupKey id (m ++ m') =
      match lookupKey id m with
      | some v => some v
      | none => lookupKey id m' := by
  induction m with
  | nil => rfl
  | cons p t ih =>
    by_cases h : p.1 = id
    · simp [lookupKey, h]
    · simpa [lookupKey, h] using ih

lemma lookupKey_filter {β : Type} (pred : String → Bool) (id : String)
    (m : List (String × β)) :
    lookupKey id (m.filter (fun p => pred p.1)) =
      if pred id then lookupKey id m else none := by
  induction m with
  | nil => simp [lookupKey]
  | cons p t ih =>
    by_cases hp : pred p.1
    · by_cases h : p.1 = id
      · subst h
        simp [lookupKey, List.filter_cons, hp]
      · simp [lookupKey, List.filter_cons, hp, h, ih]
    · by_cases h : p.1 = id
      · subst h
        simp [lookupKey, List.filter_cons, hp, ih]
      · simp [lookupKey, List.filter_cons, hp, h, ih]

-- ============================================================
-- Component behavior of updateCraneObject
-- ============================================================

lemma statOf_updateCraneObject (o : CraneObject) (c : CraneData)
    (lvl : Option AlertLevel) :
    statOf (updateCraneObject o c lvl) = statOf o := by
  cases lvl with
  | none => rfl
  | some l => cases l <;> rfl

lemma rtOf_updateCraneObject (o : CraneObject) (c : CraneData)
    (lvl : Option AlertLevel) :
    rtOf (updateCraneObject o c lvl) =
      (slewRotY c.slew_angle, luffRotZ c.luffing_angle, tipColorOf lvl) := by
  cases lvl with
  | none => rfl
  | some l => cases l <;> rfl

lemma radOf_updateCraneObject_caution (o : CraneObject) (c : CraneData) :
    radOf (updateCraneObject o c (some AlertLevel.CAUTION)) = radOf o := rfl

lemma radOf_updateCraneObject_other (o : CraneObject) (c : CraneData)
    {lvl : Option AlertLevel} (h : lvl ≠ some AlertLevel.CAUTION) :
    radOf (updateCraneObject o c lvl) = radForced lvl o.color := by
  cases lvl with
  | none => rfl
  | some l => cases l <;> first | rfl | exact absurd rfl h

lemma color_updateCraneObject (o : CraneObject) (c : CraneData)
    (lvl : Option AlertLevel) :
    (updateCraneObject o c lvl).color = o.color := by
  have h := statOf_updateCraneObject o c lvl
  simp only [statOf, Prod.ext_iff] at h
  exact h.2.2.2.2

-- ============================================================
-- applyUpdates: the per-id view of the forEach loop
-- ============================================================

lemma applyUpdates_nil (al : List (String × AlertLevel)) (id : String)
    (o : CraneObject) : applyUpdates al id [] o = o := rfl

lemma applyUpdates_cons (al : List (String × AlertLevel)) (id : String)
    (ic : Nat × CraneData) (t : List (Nat × CraneData)) (o : CraneObject) :
    applyUpdates al id (ic :: t) o =
      applyUpdates al id t
        (if ic.2.id = id then updateCraneObject o ic.2 (lookupKey ic.2.id al)
         else o) := rfl

lemma statOf_applyUpdates (al : List (String × AlertLevel)) (id : String)
    (l : List (Nat × CraneData)) (o : CraneObject) :
    statOf (applyUpdates al id l o) = statOf o := by
  induction l generalizing o with
  | nil => rfl
  | cons ic t ih =>
    by_cases h : ic.2.id = id
    · rw [applyUpdates_cons, if_pos h, ih, statOf_updateCraneObject]
    · rw [applyUpdates_cons, if_neg h]
      exact ih o

lemma color_applyUpdates (al : List (String × AlertLevel)) (id : String)
    (l : List (Nat × CraneData)) (o : CraneObject) :
    (applyUpdates al id l o).color = o.color := by
  have h := statOf_applyUpdates al id l o
  simp only [statOf, Prod.ext_iff] at h
  exact h.2.2.2.2

/-- Along the loop, the radius material state of two objects with the same
assigned color either ends up forced to a common value (a non-CAUTION update
for this id occurred) or is left untouched on both. -/
lemma radOf_applyUpdates_cases (al : List (String × AlertLevel)) (id : String) :
    ∀ (l : List (Nat × CraneData)) (o o' : CraneObject), o.color = o'.color →
      radOf (applyUpdates al id l o) = radOf (applyUpdates al id l o') ∨
      (radOf (applyUpdates al id l o) = radOf o ∧
       radOf (applyUpdates al id l o') = radOf o') := by
  intro l
  induction l with
  | nil => intro o o' _; exact Or.inr ⟨rfl, rfl⟩
  | cons ic t ih =>
    intro o o' hcol
    by_cases hm : ic.2.id = id
    · rw [applyUpdates_cons, applyUpdates_cons, if_pos hm, if_pos hm]
      have hcol2 : (updateCraneObject o ic.2 (lookupKey ic.2.id al)).color =
          (updateCraneObject o' ic.2 (lookupKey ic.2.id al)).color := by
        rw [color_updateCraneObject, color_updateCraneObject, hcol]
      by_cases hc : lookupKey ic.2.id al = some AlertLevel.CAUTION
      · rcases ih _ _ hcol2 with h | ⟨h1, h2⟩
        · exact Or.inl h
        · refine Or.inr ⟨?_, ?_⟩
          · rw [h1, hc, radOf_updateCraneObject_caution]
          · rw [h2, hc, radOf_updateCraneObject_caution]
      · have hf : radOf (updateCraneObject o ic.2 (lookupKey ic.2.id al)) =
            radOf (updateCraneObject o' ic.2 (lookupKey ic.2.id al)) := by
          rw [radOf_updateCraneObject_other _ _ hc, radOf_updateCraneObject_other _ _ hc,
            hcol]
        rcases ih _ _ hcol2 with h | ⟨h1, h2⟩
        · exact Or.inl h
        · exact Or.inl (by rw [h1, h2, hf])
    · rw [applyUpdates_cons, applyUpdates_cons, if_neg hm, if_neg hm]
      exact ih o o' hcol

/-- Along the loop, the boom pose and tip color of two objects either end up
forced to a common value (an update for this id occurred) or are left
untouched on both. -/
lemma rtOf_applyUpdates_cases (al : List (String × AlertLevel)) (id : String) :
    ∀ (l : List (Nat × CraneData)) (o o' : CraneObject),
      rtOf (applyUpdates al id l o) = rtOf (applyUpdates al id l o') ∨
      (rtOf (applyUpdates al id l o) = rtOf o ∧
       rtOf (applyUpdates al id l o') = rtOf o') := by
  intro l
  induction l with
  | nil => intro o o'; exact Or.inr ⟨rfl, rfl⟩
  | cons ic t ih =>
    intro o o'
    by_cases hm : ic.2.id = id
    · rw [applyUpdates_cons, applyUpdates_cons, if_pos hm, if_pos hm]
      have hf : rtOf (updateCraneObject o ic.2 (lookupKey ic.2.id al)) =
          rtOf (updateCraneObject o' ic.2 (lookupKey ic.2.id al)) := by
        rw [rtOf_updateCraneObject, rtOf_updateCraneObject]
      rcases ih (updateCraneObject o ic.2 (lookupKey ic.2.id al))
          (updateCraneObject o' ic.2 (lookupKey ic.2.id al)) with h | ⟨h1, h2⟩
      · exact Or.inl h
      · exact Or.inl (by rw [h1, h2, hf])
    · rw [applyUpdates_cons, applyUpdates_cons, if_neg hm, if_neg hm]
      exact ih o o'

/-- The cumulative per-id update is idempotent as a function on objects. -/
lemma applyUpdates_idem (al : List (String × AlertLevel)) (id : String)
    (l : List (Nat × CraneData)) (o : CraneObject) :
    applyUpdates al id l (applyUpdates al id l o) = applyUpdates al id l o := by
  set b := applyUpdates al id l o with hb
  have hstat : statOf (applyUpdates al id l b) = statOf b :=
    statOf_applyUpdates al id l b
  have hcolb : b.color = o.color := color_applyUpdates al id l o
  have hrad : radOf (applyUpdates al id l b) = radOf b := by
    rcases radOf_applyUpdates_cases al id l b o hcolb with h | ⟨h1, _⟩
    · rw [h, ← hb]
    · exact h1
  have hrt : rtOf (applyUpdates al id l b) = rtOf b := by
    rcases rtOf_applyUpdates_cases al id l b o with h | ⟨h1, _⟩
    · rw [h, ← hb]
    · exact h1
  simp only [statOf, Prod.ext_iff] at hstat
  simp only [radOf, Prod.ext_iff] at hrad
  simp only [rtOf, Prod.ext_iff] at hrt
  ext
  · exact hstat.1
  · exact hstat.2.1
  · exact hstat.2.2.1
  · exact hstat.2.2.2.1
  · exact hstat.2.2.2.2
  · exact hrt.1
  · exact hrt.2.1
  · exact hrt.2.2
  · exact hrad.1
  · exact hrad.2

-- ============================================================
-- Characterization of the create/update loop
-- ============================================================

lemma lookupKey_updateAt_isSome {β : Type} (k id : String) (f : β → β)
    (m : List (String × β)) :
    (lookupKey id (updateAt k f m)).isSome = (lookupKey id m).isSome := by
  by_cases h : k = id
  · subst h
    rw [lookupKey_updateAt_self]
    cases lookupKey k m <;> rfl
  · rw [lookupKey_updateAt_ne h]

/-- What the forEach loop leaves at each id: an id already present is the old
object run through its updates; an id first appearing at loop position `i`
with crane `c` is `createCraneObject c i` run through its updates; any other
id is absent. -/
lemma lookupKey_processCranes (al : List (String × AlertLevel)) :
    ∀ (l : List (Nat × CraneData)) (m : List (String × CraneObject)) (id : String),
      lookupKey id (processCranes al m l).1 =
        match lookupKey id m with
        | some o => some (applyUpdates al id l o)
        | none =>
          (l.find? (fun ic => ic.2.id == id)).map
            (fun ic => applyUpdates al id l (createCraneObject ic.2 ic.1)) := by
  intro l
  induction l with
  | nil =>
    intro m id
    cases h : lookupKey id m <;> simp [processCranes, h, applyUpdates_nil]
  | cons ic t ih =>
    intro m id
    show lookupKey id (processCranes al _ t).1 = _
    by_cases hm : ic.2.id = id
    · subst hm
      cases hl : lookupKey ic.2.id m with
      | some o =>
        rw [ih]
        rw [if_neg (by simp : ¬ ((some o : Option CraneObject).isNone = true))]
        rw [lookupKey_updateAt_self, hl]
        simp [applyUpdates_cons]
      | none =>
        rw [ih]
        simp only [Option.isNone_none, eq_self_iff_true, if_true]
        rw [lookupKey_updateAt_self, lookupKey_append, hl]
        have hfind : (ic :: t).find? (fun x => x.2.id == ic.2.id) = some ic := by
          simp [List.find?]
        rw [hfind]
        simp [applyUpdates_cons, lookupKey]
    · have hlook :
          lookupKey id (updateAt ic.2.id
            (fun o => updateCraneObject o ic.2 (lookupKey ic.2.id al))
            (if (lookupKey ic.2.id m).isNone then
              m ++ [(ic.2.id, createCraneObject ic.2 ic.1)] else m)) =
          lookupKey id m := by
        rw [lookupKey_updateAt_ne hm]
        by_cases hc : (lookupKey ic.2.id m).isNone
        · rw [if_pos hc, lookupKey_append]
          cases h2 : lookupKey id m with
          | some o => rfl
          | none => simp [lookupKey, hm]
        · rw [if_neg hc]
      rw [ih, hlook]
      have hpred : (fun x => x.2.id == id) ic = false := by
        simp [hm]
      cases h2 : lookupKey id m with
      | some o =>
        simp [applyUpdates_cons, hm]
      | none =>
        rw [List.find?_cons_of_neg _ (by simp [hm])]
        cases h3 : t.find? (fun x => x.2.id == id) with
        | none => rfl
        | some ic' =>
          simp [applyUpdates_cons, hm]

lemma processCranes_created_nil (al : List (String × AlertLevel)) :
    ∀ (l : List (Nat × CraneData)) (m : List (String × CraneObject)),
      (∀ ic ∈ l, (lookupKey ic.2.id m).isSome = true) →
      (processCranes al m l).2 = [] := by
  intro l
  induction l with
  | nil => intro m _; rfl
  | cons ic t ih =>
    intro m h
    have h0 : (lookupKey ic.2.id m).isSome = true := h ic (by simp)
    have hc : (lookupKey ic.2.id m).isNone = false := by
      cases hx : lookupKey ic.2.id m
      · rw [hx] at h0; simp at h0
      · rfl
    show ((if (lookupKey ic.2.id m).isNone then [ic.2.id] else []) ++ _) = []
    rw [hc]
    simp only [if_neg Bool.false_ne_true, ite_false, List.nil_append]
    have hm2 : ∀ ic' ∈ t,
        (lookupKey ic'.2.id (updateAt ic.2.id
          (fun o => updateCraneObject o ic.2 (lookupKey ic.2.id al))
          (if (lookupKey ic.2.id m).isNone then
            m ++ [(ic.2.id, createCraneObject ic.2 ic.1)] else m))).isSome = true := by
      intro ic' hic'
      rw [lookupKey_updateAt_isSome, hc]
      simp only [if_neg Bool.false_ne_true, ite_false]
      exact h ic' (List.mem_cons_of_mem _ hic')
    have := ih _ hm2
    rw [hc] at this
    simpa using this

lemma keys_processCranes (al : List (String × AlertLevel)) :
    ∀ (l : List (Nat × CraneData)) (m : List (String × CraneObject))
      (p : String × CraneObject), p ∈ (processCranes al m l).1 →
      p.1 ∈ m.map Prod.fst ∨ ∃ ic ∈ l, p.1 = ic.2.id := by
  intro l
  induction l with
  | nil =>
    intro m p hp
    exact Or.inl (List.mem_map_of_mem Prod.fst hp)
  | cons ic t ih =>
    intro m p hp
    rcases ih _ p hp with hk | ⟨ic', hic', he⟩
    · rw [List.mem_map] at hk
      rcases hk with ⟨q, hq, hqe⟩
      rw [updateAt, List.mem_map] at hq
      rcases hq with ⟨q', hq', hq'e⟩
      have hkey : q.1 = q'.1 := by
        rw [← hq'e]
        by_cases h : q'.1 = ic.2.id <;> simp [h]
      by_cases hcr : (lookupKey ic.2.id m).isNone
      · rw [if_pos hcr] at hq'
        rcases List.mem_append.1 hq' with h1 | h2
        · exact Or.inl (by rw [← hqe, hkey]; exact List.mem_map_of_mem Prod.fst h1)
        · right
          refine ⟨ic, by simp, ?_⟩
          rw [← hqe, hkey]
          simp at h2
          rw [h2]
      · rw [if_neg hcr] at hq'
        exact Or.inl (by rw [← hqe, hkey]; exact List.mem_map_of_mem Prod.fst hq')
    · exact Or.inr ⟨ic', List.mem_cons_of_mem _ hic', he⟩

-- ============================================================
-- enum helpers
-- ============================================================

lemma find?_enumFrom_isSome (p : CraneData → Bool) (l : List CraneData) :
    ∀ n : Nat, ((List.enumFrom n l).find? (fun ic => p ic.2)).isSome = l.any p := by
  induction l with
  | nil => intro n; rfl
  | cons c t ih =>
    intro n
    cases hp : p c <;> simp [List.enumFrom, List.find?, hp, ih]

lemma find?_enum_isSome (p : CraneData → Bool) (l : List CraneData) :
    (l.enum.find? (fun ic => p ic.2)).isSome = l.any p :=
  find?_enumFrom_isSome p l 0

lemma snd_mem_of_mem_enumFrom {ic : Nat × CraneData} :
    ∀ (l : List CraneData) (n : Nat), ic ∈ List.enumFrom n l → ic.2 ∈ l := by
  intro l
  induction l with
  | nil => intro n h; simp [List.enumFrom] at h
  | cons c t ih =>
    intro n h
    rw [List.enumFrom] at h
    rcases List.mem_cons.1 h with h1 | h2
    · rw [h1]; simp
    · exact List.mem_cons_of_mem _ (ih _ h2)

lemma snd_mem_of_mem_enum {ic : Nat × CraneData} {l : List CraneData}
    (h : ic ∈ l.enum) : ic.2 ∈ l :=
  snd_mem_of_mem_enumFrom l 0 h

-- ============================================================
-- Scene-level lemmas
-- ============================================================

lemma updateThreeScene_some (st : SceneState) (s : Snapshot)
    (h : st.isInit = true) :
    updateThreeScene st (some s) = (reconcile st s).1 := by
  simp [updateThreeScene, h]

lemma isInit_updateThreeScene (st : SceneState) (s : Option Snapshot) :
    (updateThreeScene st s).isInit = st.isInit := by
  by_cases h : st.isInit = false
  · simp [updateThreeScene, h]
  · cases s with
    | none => simp [updateThreeScene, h]
    | some s' => simp [updateThreeScene, h, reconcile]

lemma reconcile_craneObjects (st : SceneState) (s : Snapshot) :
    (reconcile st s).1.craneObjects =
      ((processCranes ((s.status.bind StatusData.crane_alerts).getD [])
          st.craneObjects (s.cranes.getD []).enum).1).filter
        (fun p => (s.cranes.getD []).any (fun c => c.id == p.1)) := rfl

lemma reconcile_warningLines (st : SceneState) (s : Snapshot) :
    (reconcile st s).1.warningLines =
      updateWarningLines (reconcile st s).1.craneObjects (s.collisions.getD []) := rfl

lemma reconcile_created (st : SceneState) (s : Snapshot) :
    (reconcile st s).2.1 =
      (processCranes ((s.status.bind StatusData.crane_alerts).getD [])
        st.craneObjects (s.cranes.getD []).enum).2 := rfl

lemma reconcile_removed (st : SceneState) (s : Snapshot) :
    (reconcile st s).2.2 =
      removedIds (processCranes ((s.status.bind StatusData.crane_alerts).getD [])
        st.craneObjects (s.cranes.getD []).enum).1 (s.cranes.getD []) := rfl

lemma lookupKey_filter_any (cranes : List CraneData) (id : String)
    (m : List (String × CraneObject)) :
    lookupKey id (m.filter (fun p => cranes.any (fun c => c.id == p.1))) =
      if cranes.any (fun c => c.id == id) then lookupKey id m else none :=
  lookupKey_filter (fun x => cranes.any (fun c => c.id == x)) id m

lemma lookupKey_reconcile_isSome (st : SceneState) (s : Snapshot) (id : String) :
    (lookupKey id (reconcile st s).1.craneObjects).isSome =
      (s.cranes.getD []).any (fun c => c.id == id) := by
  rw [reconcile_craneObjects, lookupKey_filter_any]
  by_cases h : (s.cranes.getD []).any (fun c => c.id == id) = true
  · rw [if_pos h, h, lookupKey_processCranes]
    cases hl : lookupKey id st.craneObjects with
    | some o => rfl
    | none =>
      have hfs := find?_enum_isSome (fun c => c.id == id) (s.cranes.getD [])
      cases hf : (s.cranes.getD []).enum.find? (fun ic => ic.2.id == id) with
      | some ic => rfl
      | none =>
        rw [hf] at hfs
        rw [← hfs] at h
        simp at h
  · rw [if_neg h]
    simp only [Option.isSome_none]
    exact (Bool.eq_false_iff.2 (fun hx => h hx)).symm

lemma lookupKey_updateThreeScene_isSome (st : SceneState) (s : Snapshot)
    (id : String) (h : st.isInit = true) :
    (lookupKey id (updateThreeScene st (some s)).craneObjects).isSome =
      (s.cranes.getD []).any (fun c => c.id == id) := by
  rw [updateThreeScene_some st s h, lookupKey_reconcile_isSome]

-- ============================================================
-- Warning overlay characterization
-- ============================================================

lemma updateWarningLines_aux (m : List (String × CraneObject)) :
    ∀ (cols : List Collision) (acc : List WarningLine),
      cols.foldl (fun acc collision =>
        if collision.alert_level = AlertLevel.NORMAL then acc
        else
          match lookupKey collision.crane_a_id m,
                lookupKey collision.crane_b_id m with
          | some objA, some objB =>
              acc ++ [{ posA := tipWorldPos objA
                        posB := tipWorldPos objB
                        color := ALERT_LEVEL_COLORS collision.alert_level
                        dashed := true }]
          | some _, none => acc
          | none, _ => acc) acc =
      acc ++ cols.filterMap (warningLineFor m) := by
  intro cols
  induction cols with
  | nil => intro acc; simp
  | cons col t ih =>
    intro acc
    rw [List.foldl_cons, List.filterMap_cons]
    by_cases hn : col.alert_level = AlertLevel.NORMAL
    · simp only [warningLineFor, if_pos hn, ih]
    · cases ha : lookupKey col.crane_a_id m with
      | none =>
        simp only [warningLineFor, if_neg hn, ha, ih]
      | some objA =>
        cases hb : lookupKey col.crane_b_id m with
        | none =>
          simp only [warningLineFor, if_neg hn, ha, hb, ih]
        | some objB =>
          simp only [warningLineFor, if_neg hn, ha, hb, ih, List.append_assoc,
            List.singleton_append]

lemma updateWarningLines_eq_filterMap (m : List (String × CraneObject))
    (cols : List Collision) :
    updateWarningLines m cols = cols.filterMap (warningLineFor m) := by
  have h := updateWarningLines_aux m cols []
  simpa [updateWarningLines] using h

lemma warningLineFor_congr {m m' : List (String × CraneObject)}
    (h : ∀ id, lookupKey id m = lookupKey id m') (col : Collision) :
    warningLineFor m col = warningLineFor m' col := by
  unfold warningLineFor
  rw [h, h]

lemma updateWarningLines_congr {m m' : List (String × CraneObject)}
    (h : ∀ id, lookupKey id m = lookupKey id m') (cols : List Collision) :
    updateWarningLines m cols = updateWarningLines m' cols := by
  rw [updateWarningLines_eq_filterMap, updateWarningLines_eq_filterMap]
  exact List.filterMap_congr (fun a _ => warningLineFor_congr h a)

lemma warningLineFor_isSome (m : List (String × CraneObject)) (col : Collision) :
    (warningLineFor m col).isSome =
      (!(col.alert_level == AlertLevel.NORMAL) &&
       (lookupKey col.crane_a_id m).isSome &&
       (lookupKey col.crane_b_id m).isSome) := by
  unfold warningLineFor
  by_cases hn : col.alert_level = AlertLevel.NORMAL
  · simp [hn]
  · cases ha : lookupKey col.crane_a_id m with
    | none => simp [hn, ha]
    | some objA =>
      cases hb : lookupKey col.crane_b_id m with
      | none => simp [hn, ha, hb]
      | some objB => simp [hn, ha, hb]

lemma length_filterMap_isSome {α β : Type} (f : α → Option β) (l : List α) :
    (l.filterMap f).length = (l.filter (fun a => (f a).isSome)).length := by
  induction l with
  | nil => rfl
  | cons a t ih => cases hf : f a <;> simp [hf, ih]

-- ============================================================
-- Second-run (idempotence) lemmas
-- ============================================================

/-- Every value stored by the reconciled mapping is in the image of the
cumulative per-id update. -/
lemma lookupKey_reconcile_eq_applyUpdates (st : SceneState) (s : Snapshot)
    (id : String) (o : CraneObject)
    (hl : lookupKey id (reconcile st s).1.craneObjects = some o) :
    ∃ b, o = applyUpdates ((s.status.bind StatusData.crane_alerts).getD []) id
      (s.cranes.getD []).enum b := by
  rw [reconcile_craneObjects, lookupKey_filter_any] at hl
  by_cases h : (s.cranes.getD []).any (fun c => c.id == id) = true
  · rw [if_pos h, lookupKey_processCranes] at hl
    cases h0 : lookupKey id st.craneObjects with
    | some b =>
      rw [h0] at hl
      exact ⟨b, (Option.some_inj.1 hl).symm⟩
    | none =>
      rw [h0] at hl
      cases hf : (s.cranes.getD []).enum.find? (fun ic => ic.2.id == id) with
      | none => rw [hf] at hl; simp at hl
      | some ic =>
        rw [hf] at hl
        simp only [Option.map_some] at hl
        exact ⟨createCraneObject ic.2 ic.1, (Option.some_inj.1 hl).symm⟩
  · rw [if_neg h] at hl
    simp at hl

lemma lookupKey_reconcile_reconcile (st : SceneState) (s : Snapshot)
    (id : String) :
    lookupKey id (reconcile (reconcile st s).1 s).1.craneObjects =
      lookupKey id (reconcile st s).1.craneObjects := by
  by_cases h : (s.cranes.getD []).any (fun c => c.id == id) = true
  · rw [reconcile_craneObjects (reconcile st s).1 s, lookupKey_filter_any,
      if_pos h, lookupKey_processCranes]
    cases hl : lookupKey id (reconcile st s).1.craneObjects with
    | some o =>
      obtain ⟨b, rfl⟩ := lookupKey_reconcile_eq_applyUpdates st s id o hl
      exact congrArg some (applyUpdates_idem _ _ _ b)
    | none =>
      have hs := lookupKey_reconcile_isSome st s id
      rw [hl] at hs
      simp only [Option.isSome_none] at hs
      rw [← hs] at h
      simp at h
  · have h1 : lookupKey id (reconcile st s).1.craneObjects = none := by
      apply Option.not_isSome_iff_eq_none.1
      rw [lookupKey_reconcile_isSome]
      simpa using h
    have h2 : lookupKey id (reconcile (reconcile st s).1 s).1.craneObjects = none := by
      apply Option.not_isSome_iff_eq_none.1
      rw [lookupKey_reconcile_isSome]
      simpa using h
    rw [h1, h2]

/-- A second run of the loop over the just-reconciled mapping creates
nothing. -/
lemma reconcile_reconcile_created_nil (st : SceneState) (s : Snapshot) :
    (reconcile (reconcile st s).1 s).2.1 = [] := by
  rw [reconcile_created]
  apply processCranes_created_nil
  intro ic hic
  rw [lookupKey_reconcile_isSome]
  exact List.any_eq_true.2 ⟨ic.2, snd_mem_of_mem_enum hic, by simp⟩

/-- A second run of the deletion loop over the just-reconciled mapping
removes nothing. -/
lemma reconcile_reconcile_removed_nil (st : SceneState) (s : Snapshot) :
    (reconcile (reconcile st s).1 s).2.2 = [] := by
  rw [reconcile_removed]
  unfold removedIds
  rw [List.map_eq_nil_iff, List.filter_eq_nil_iff]
  intro p hp
  rcases keys_processCranes _ _ _ p hp with hk | ⟨ic, hic, he⟩
  · rw [List.mem_map] at hk
    rcases hk with ⟨q, hq, hqe⟩
    have hpred := (List.mem_filter.1 (by
      rw [reconcile_craneObjects] at hq
      exact hq)).2
    simp only [← hqe]
    simp only [Bool.not_eq_true', Bool.not_eq_false]
    exact hpred
  · simp only [he, Bool.not_eq_true', Bool.not_eq_false]
    exact List.any_eq_true.2 ⟨ic.2, snd_mem_of_mem_enum hic, by simp⟩

lemma reconcile_isInit (st : SceneState) (s : Snapshot) :
    (reconcile st s).1.isInit = st.isInit := rfl

lemma statOf_lookupKey_reconcile (st : SceneState) (s : Snapshot) (id : String)
    (o o' : CraneObject) (h0 : lookupKey id st.craneObjects = some o)
    (h1 : lookupKey id (reconcile st s).1.craneObjects = some o') :
    statOf o' = statOf o := by
  rw [reconcile_craneObjects, lookupKey_filter_any] at h1
  by_cases h : (s.cranes.getD []).any (fun c => c.id == id) = true
  · rw [if_pos h, lookupKey_processCranes, h0] at h1
    have he := Option.some_inj.1 h1
    rw [← he, statOf_applyUpdates]
  · rw [if_neg h] at h1
    simp at h1

-- ============================================================
-- Transport timer invariant
-- ============================================================

lemma timerInv_scheduleReconnect {s : WSClientState} (h : timerInv s) :
    timerInv (scheduleReconnect s).1 := by
  unfold scheduleReconnect
  by_cases hr : s.reconnectTimer = true
  · rw [if_pos hr]
    exact h
  · rw [if_neg hr]
    have hp : s.pendingTimers = 0 := by
      have h1 : ¬ s.pendingTimers = 1 := fun hh => hr (h.2.2 hh)
      have h2 := h.1
      omega
    constructor
    · simp [hp]
    · simp [hp]

lemma timerInv_connectWebSocket {s : WSClientState} (f : Bool)
    (h : timerInv s) : timerInv (connectWebSocket s f).1 := by
  unfold connectWebSocket
  by_cases ho : s.ws = some ReadyState.opened
  · rw [if_pos ho]
    exact h
  · rw [if_neg ho]
    cases f with
    | true => simpa using timerInv_scheduleReconnect h
    | false => simpa using h
  
lemma timerInv_onOpen {s : WSClientState} (h : timerInv s) :
    timerInv (onOpen s).1 := by
  unfold onOpen
  by_cases hr : s.reconnectTimer = true
  · have hp : s.pendingTimers = 1 := h.2.1 hr
    simp only [hr, if_true]
    constructor
    · simp [hp]
    · simp [hp]
  · simp only [hr, if_false]
    simp only [Bool.not_eq_true] at hr
    constructor
    · exact h.1
    · simpa [hr] using h.2

lemma timerInv_onClose {s : WSClientState} (h : timerInv s) :
    timerInv (onClose s).1 := by
  unfold onClose
  exact timerInv_scheduleReconnect ⟨h.1, h.2⟩

lemma timerInv_onError {s : WSClientState} (h : timerInv s) :
    timerInv (onError s).1 := ⟨h.1, h.2⟩

lemma timerInv_onTimerFire {s : WSClientState} (f : Bool)
    (h : timerInv s) (hp : 0 < s.pendingTimers) :
    timerInv (onTimerFire s f).1 := by
  unfold onTimerFire
  have h1 : s.pendingTimers = 1 := by
    have := h.1
    omega
  apply timerInv_connectWebSocket f
  constructor
  · simp [h1]
  · simp [h1]

lemma timerInv_onMessage {s : WSClientState} (fr : Frame)
    (h : timerInv s) : timerInv (onMessage s fr).1 := by
  cases fr with
  | malformed => exact h
  | wellFormed msg =>
    unfold onMessage
    by_cases he : errTruthy msg.errorField = true
    · simp only [he, if_true]
      exact ⟨h.1, h.2⟩
    · simp only [he, if_false]
      by_cases ha : msg.ackField = true
      · simp only [ha, if_true]
        exact ⟨h.1, h.2⟩
      · simp only [ha, if_false]
        exact ⟨h.1, h.2⟩

lemma timerInv_reachable {s : WSClientState} (h : Reachable s) : timerInv s := by
  induction h with
  | init => exact ⟨by simp [initState], by simp [initState]⟩
  | connectStep s f _ ih => exact timerInv_connectWebSocket f ih
  | openStep s _ _ ih => exact timerInv_onOpen ih
  | closeStep s _ ih => exact timerInv_onClose ih
  | errorStep s _ ih => exact timerInv_onError ih
  | timerStep s f _ hp ih => exact timerInv_onTimerFire f ih hp
  | messageStep s fr _ ih => exact timerInv_onMessage fr ih

lemma onClose_single_timer {s : WSClientState} (h : timerInv s) :
    (onClose s).1.pendingTimers = 1 ∧ (onClose s).1.reconnectTimer = true := by
  unfold onClose scheduleReconnect
  by_cases hr : s.reconnectTimer = true
  · have hp : s.pendingTimers = 1 := h.2.1 hr
    simp [hr, hp]
  · have hp : s.pendingTimers = 0 := by
      have h1 : ¬ s.pendingTimers = 1 := fun hh => hr (h.2.2 hh)
      have := h.1
      omega
    simp [hr, hp]

lemma closeIter_single_timer :
    ∀ (n : Nat) (s : WSClientState), timerInv s →
      (closeIter (n + 1) s).pendingTimers = 1 ∧
      (closeIter (n + 1) s).reconnectTimer = true := by
  intro n
  induction n with
  | zero => intro s h; exact onClose_single_timer h
  | succ k ih => intro s h; exact ih (onClose s).1 (timerInv_onClose h)

-- ============================================================
-- Claim theorems
-- ============================================================

/-- C1: after `updateThreeScene` processes a snapshot, the set of live ids in
`craneObjects` is exactly the set of crane ids of that snapshot; consequently,
reconciling S1 and then S2 leaves exactly S2's ids, with no leftover from
S1. -/
theorem c1_live_ids_match_snapshot (st : SceneState) (state : Snapshot)
    (h : st.isInit = true) :
    (∀ id, (lookupKey id (updateThreeScene st (some state)).craneObjects).isSome
        = true ↔ (state.cranes.getD []).any (fun c => c.id == id) = true) ∧
    (∀ state2 id,
      (lookupKey id (updateThreeScene (updateThreeScene st (some state))
          (some state2)).craneObjects).isSome = true ↔
        (state2.cranes.getD []).any (fun c => c.id == id) = true) := by
  constructor
  · intro id
    rw [lookupKey_updateThreeScene_isSome st state id h]
  · intro state2 id
    have h2 : (updateThreeScene st (some state)).isInit = true := by
      rw [isInit_updateThreeScene]
      exact h
    rw [lookupKey_updateThreeScene_isSome _ state2 id h2]

theorem c1_live_ids_match_snapshot_witness :
    initialScene.isInit = true ∧
    ((∀ id, (lookupKey id (updateThreeScene initialScene (some snapA)).craneObjects).isSome
        = true ↔ (snapA.cranes.getD []).any (fun c => c.id == id) = true) ∧
     (∀ state2 id,
      (lookupKey id (updateThreeScene (updateThreeScene initialScene (some snapA))
          (some state2)).craneObjects).isSome = true ↔
        (state2.cranes.getD []).any (fun c => c.id == id) = true)) :=
  ⟨rfl, c1_live_ids_match_snapshot initialScene snapA rfl⟩

/-- C2: reconciliation is idempotent — running `updateThreeScene` twice with
the same snapshot yields the same live Visual Object per id and the same
overlay as running it once, and the second run performs no creates and no
destroys. -/
theorem c2_reconcile_idempotent (st : SceneState) (state : Snapshot)
    (h : st.isInit = true) :
    sceneEquiv (updateThreeScene (updateThreeScene st (some state)) (some state))
      (updateThreeScene st (some state)) ∧
    (reconcile (updateThreeScene st (some state)) state).2.1 = [] ∧
    (reconcile (updateThreeScene st (some state)) state).2.2 = [] := by
  have e1 : updateThreeScene st (some state) = (reconcile st state).1 :=
    updateThreeScene_some st state h
  have h1 : (reconcile st state).1.isInit = true := by
    rw [reconcile_isInit]
    exact h
  have e2 : updateThreeScene (reconcile st state).1 (some state) =
      (reconcile (reconcile st state).1 state).1 :=
    updateThreeScene_some _ state h1
  rw [e1, e2]
  refine ⟨⟨?_, ?_, ?_⟩, ?_, ?_⟩
  · rw [reconcile_isInit, reconcile_isInit]
  · exact lookupKey_reconcile_reconcile st state
  · rw [reconcile_warningLines, reconcile_warningLines]
    exact updateWarningLines_congr (lookupKey_reconcile_reconcile st state) _
  · exact reconcile_reconcile_created_nil st state
  · exact reconcile_reconcile_removed_nil st state

theorem c2_reconcile_idempotent_witness :
    initialScene.isInit = true ∧
    (sceneEquiv (updateThreeScene (updateThreeScene initialScene (some snapA))
        (some snapA)) (updateThreeScene initialScene (some snapA)) ∧
     (reconcile (updateThreeScene initialScene (some snapA)) snapA).2.1 = [] ∧
     (reconcile (updateThreeScene initialScene (some snapA)) snapA).2.2 = []) :=
  ⟨rfl, c2_reconcile_idempotent initialScene snapA rfl⟩

/-- C3 counterexample: the luffing angle is not sign-flipped.  For the crane
`testCraneA` with `luffing_angle = 30`, the rotation written to the boom
around the z axis is `+30·π/180`, not `-30·π/180` (rotation fields store the
coefficient of π). -/
theorem c3_counterexample :
    (updateCraneObject (createCraneObject testCraneA 0) testCraneA none).rotZ
        = 30 / 180 ∧
    ¬ (updateCraneObject (createCraneObject testCraneA 0) testCraneA none).rotZ
        = -(30) / 180 := by
  constructor
  · simp [updateCraneObject, createCraneObject, testCraneA, luffRotZ]
  · simp [updateCraneObject, createCraneObject, testCraneA, luffRotZ]
    norm_num

/-- C3 (amended): the angle mapping of the per-entity update is deterministic;
the slew angle is sign-flipped (`a ↦ -a·π/180`, written to the y rotation),
while the luffing angle is mapped without a sign flip (`a ↦ +a·π/180`,
written to the z rotation).  Rotation fields store the coefficient of π. -/
theorem c3_angle_mapping (o : CraneObject) (c : CraneData)
    (lvl : Option AlertLevel) :
    (updateCraneObject o c lvl).rotY = -c.slew_angle / 180 ∧
    (updateCraneObject o c lvl).rotZ = c.luffing_angle / 180 := by
  have h := rtOf_updateCraneObject o c lvl
  simp only [rtOf, Prod.ext_iff] at h
  exact ⟨h.1, h.2.1⟩

/-- C4: after reconciliation the warning overlay is exactly one dashed
indicator per Collision record whose level is above NORMAL and whose two ids
are both live, connecting the two tips and colored by the pair's level
(`filterMap` of `warningLineFor`); its size is the number of qualifying
records; and the overlay is rebuilt from scratch — it does not depend on the
previous overlay. -/
theorem c4_warning_overlay (st : SceneState) (state : Snapshot)
    (h : st.isInit = true) :
    (updateThreeScene st (some state)).warningLines =
      (state.collisions.getD []).filterMap
        (warningLineFor (updateThreeScene st (some state)).craneObjects) ∧
    (updateThreeScene st (some state)).warningLines.length =
      ((state.collisions.getD []).filter (fun col =>
        !(col.alert_level == AlertLevel.NORMAL) &&
        (lookupKey col.crane_a_id
          (updateThreeScene st (some state)).craneObjects).isSome &&
        (lookupKey col.crane_b_id
          (updateThreeScene st (some state)).craneObjects).isSome)).length ∧
    (∀ w : List WarningLine,
      (updateThreeScene { st with warningLines := w } (some state)).warningLines =
        (updateThreeScene st (some state)).warningLines) := by
  rw [updateThreeScene_some st state h]
  refine ⟨?_, ?_, ?_⟩
  · rw [reconcile_warningLines]
    exact updateWarningLines_eq_filterMap _ _
  · rw [reconcile_warningLines, updateWarningLines_eq_filterMap,
      length_filterMap_isSome]
    apply congrArg List.length
    apply List.filter_congr
    intro col _
    rw [warningLineFor_isSome]
  · intro w
    have e3 : updateThreeScene { st with warningLines := w } (some state) =
        (reconcile { st with warningLines := w } state).1 :=
      updateThreeScene_some _ state h
    rw [e3]
    rfl

theorem c4_warning_overlay_witness :
    initialScene.isInit = true ∧
    ((updateThreeScene initialScene (some (snapPair AlertLevel.DANGER))).warningLines =
      ((snapPair AlertLevel.DANGER).collisions.getD []).filterMap
        (warningLineFor (updateThreeScene initialScene
          (some (snapPair AlertLevel.DANGER))).craneObjects) ∧
     (updateThreeScene initialScene (some (snapPair AlertLevel.DANGER))).warningLines.length =
      (((snapPair AlertLevel.DANGER).collisions.getD []).filter (fun col =>
        !(col.alert_level == AlertLevel.NORMAL) &&
        (lookupKey col.crane_a_id
          (updateThreeScene initialScene (some (snapPair AlertLevel.DANGER))).craneObjects).isSome &&
        (lookupKey col.crane_b_id
          (updateThreeScene initialScene (some (snapPair AlertLevel.DANGER))).craneObjects).isSome)).length ∧
     (∀ w : List WarningLine,
      (updateThreeScene { initialScene with warningLines := w }
          (some (snapPair AlertLevel.DANGER))).warningLines =
        (updateThreeScene initialScene (some (snapPair AlertLevel.DANGER))).warningLines)) :=
  ⟨rfl, c4_warning_overlay initialScene (snapPair AlertLevel.DANGER) rfl⟩

/-- C9 counterexample: the working-radius coloring is not derived solely from
the entity's current Alert Level.  Entity "A" is live in both runs and its
current level is CAUTION in both final snapshots, yet after a NORMAL history
the radius indicator shows the crane color with opacity 0.15 while after a
DANGER history it still shows the DANGER red with opacity 0.25. -/
theorem c9_counterexample :
    (lookupKey "A" (updateThreeScene (updateThreeScene initialScene
        (some (snapLvl AlertLevel.NORMAL)))
        (some (snapLvl AlertLevel.CAUTION))).craneObjects).map radOf =
      some (0x4a90d9, 3/20) ∧
    (lookupKey "A" (updateThreeScene (updateThreeScene initialScene
        (some (snapLvl AlertLevel.DANGER)))
        (some (snapLvl AlertLevel.CAUTION))).craneObjects).map radOf =
      some (0xFF0000, 1/4) ∧
    ((0x4a90d9 : Nat), (3/20 : ℚ)) ≠ ((0xFF0000 : Nat), (1/4 : ℚ)) := by
  refine ⟨?_, ?_, by norm_num⟩ <;>
    simp [updateThreeScene, initialScene, reconcile, snapLvl, processCranes,
      testCraneA, lookupKey, updateAt, updateCraneObject, createCraneObject,
      updateWarningLines, removedIds, craneColorOf, CRANE_COLORS,
      ALERT_LEVEL_COLORS, radOf, slewRotY, luffRotZ, List.enum, List.enumFrom]

/-- C9 (amended): the tip marker color is a function of the current Alert
Level alone; the update resets the full coloring to the neutral safe
appearance when the current level is NORMAL or absent, and forces the radius
indicator when the level is WARNING or DANGER — but at CAUTION the radius
indicator keeps whatever state the previous snapshot left. -/
theorem c9_alert_coloring (o : CraneObject) (c : CraneData)
    (lvl : Option AlertLevel) :
    ((lvl = none ∨ lvl = some AlertLevel.NORMAL) →
      (updateCraneObject o c lvl).tipColor = 0xffffff ∧
      (updateCraneObject o c lvl).radiusColor = o.color ∧
      (updateCraneObject o c lvl).radiusOpacity = 3/20) ∧
    ((updateCraneObject o c lvl).tipColor = tipColorOf lvl) ∧
    (lvl ≠ some AlertLevel.CAUTION →
      radOf (updateCraneObject o c lvl) = radForced lvl o.color) ∧
    (lvl = some AlertLevel.CAUTION →
      radOf (updateCraneObject o c lvl) = radOf o) := by
  refine ⟨?_, ?_, ?_, ?_⟩
  · intro hl
    rcases hl with h | h <;> subst h <;>
      exact ⟨rfl, rfl, rfl⟩
  · have h := rtOf_updateCraneObject o c lvl
    simp only [rtOf, Prod.ext_iff] at h
    exact h.2.2
  · intro hne
    exact radOf_updateCraneObject_other o c hne
  · intro he
    subst he
    exact radOf_updateCraneObject_caution o c

theorem c9_alert_coloring_witness :
    ((some AlertLevel.NORMAL = none ∨
        some AlertLevel.NORMAL = some AlertLevel.NORMAL) →
      (updateCraneObject (createCraneObject testCraneA 0) testCraneA
        (some AlertLevel.NORMAL)).tipColor = 0xffffff ∧
      (updateCraneObject (createCraneObject testCraneA 0) testCraneA
        (some AlertLevel.NORMAL)).radiusColor = (createCraneObject testCraneA 0).color ∧
      (updateCraneObject (createCraneObject testCraneA 0) testCraneA
        (some AlertLevel.NORMAL)).radiusOpacity = 3/20) ∧
    ((updateCraneObject (createCraneObject testCraneA 0) testCraneA
        (some AlertLevel.NORMAL)).tipColor = tipColorOf (some AlertLevel.NORMAL)) ∧
    (some AlertLevel.NORMAL ≠ some AlertLevel.CAUTION →
      radOf (updateCraneObject (createCraneObject testCraneA 0) testCraneA
        (some AlertLevel.NORMAL)) =
        radForced (some AlertLevel.NORMAL) (createCraneObject testCraneA 0).color) ∧
    (some AlertLevel.NORMAL = some AlertLevel.CAUTION →
      radOf (updateCraneObject (createCraneObject testCraneA 0) testCraneA
        (some AlertLevel.NORMAL)) = radOf (createCraneObject testCraneA 0)) :=
  c9_alert_coloring (createCraneObject testCraneA 0) testCraneA
    (some AlertLevel.NORMAL)

/-- C10: for an entity id already present in the live mapping, reconciling a
later snapshot leaves the existing object's root placement and geometry
(base position, mast height, boom length, and its assigned color) unchanged,
whatever base or geometry values the snapshot now carries — the per-entity
update writes only rotations and material state. -/
theorem c10_update_preserves_geometry (st : SceneState) (state : Snapshot)
    (id : String) (o o' : CraneObject) (h : st.isInit = true)
    (h0 : lookupKey id st.craneObjects = some o)
    (h1 : lookupKey id (updateThreeScene st (some state)).craneObjects = some o') :
    o'.posX = o.posX ∧ o'.posZ = o.posZ ∧ o'.mastHeight = o.mastHeight ∧
    o'.boomLength = o.boomLength ∧ o'.color = o.color := by
  rw [updateThreeScene_some st state h] at h1
  have hst := statOf_lookupKey_reconcile st state id o o' h0 h1
  simp only [statOf, Prod.ext_iff] at hst
  exact ⟨hst.1, hst.2.1, hst.2.2.1, hst.2.2.2.1, hst.2.2.2.2⟩

theorem c10_update_preserves_geometry_witness :
    (updateThreeScene initialScene (some snapA)).isInit = true ∧
    lookupKey "A" (updateThreeScene initialScene (some snapA)).craneObjects
      = some objA ∧
    lookupKey "A" (updateThreeScene (updateThreeScene initialScene (some snapA))
      (some snapA2)).craneObjects = some objA2 ∧
    (objA2.posX = objA.posX ∧ objA2.posZ = objA.posZ ∧
     objA2.mastHeight = objA.mastHeight ∧ objA2.boomLength = objA.boomLength ∧
     objA2.color = objA.color) := by
  have hinit : (updateThreeScene initialScene (some snapA)).isInit = true := rfl
  have h0 : lookupKey "A" (updateThreeScene initialScene (some snapA)).craneObjects
      = some objA := by
    norm_num [updateThreeScene, initialScene, reconcile, snapA, processCranes,
      testCraneA, lookupKey, updateAt, updateCraneObject, createCraneObject,
      updateWarningLines, removedIds, craneColorOf, CRANE_COLORS,
      ALERT_LEVEL_COLORS, slewRotY, luffRotZ, List.enum, List.enumFrom, objA]
  have h1 : lookupKey "A" (updateThreeScene (updateThreeScene initialScene
      (some snapA)) (some snapA2)).craneObjects = some objA2 := by
    norm_num [updateThreeScene, initialScene, reconcile, snapA, snapA2,
      processCranes, testCraneA, testCraneA2, lookupKey, updateAt,
      updateCraneObject, createCraneObject, updateWarningLines, removedIds,
      craneColorOf, CRANE_COLORS, ALERT_LEVEL_COLORS, slewRotY, luffRotZ,
      List.enum, List.enumFrom, objA2]
    all_goals decide
  exact ⟨hinit, h0, h1,
    c10_update_preserves_geometry (updateThreeScene initialScene (some snapA))
      snapA2 "A" objA objA2 hinit h0 h1⟩

/-- C5 counterexample: an error event on a CONNECTING socket with no reconnect
scheduled does NOT schedule one — `ws.onerror` only flips the status; only
`ws.onclose` calls `scheduleReconnect`. -/
theorem c5_counterexample :
    sConn.ws = some ReadyState.conn ∧
    sConn.reconnectTimer = false ∧
    sConn.pendingTimers = 0 ∧
    (onError sConn).2 = [WSAction.notifyStatus false] ∧
    (onError sConn).1.pendingTimers = 0 ∧
    (onError sConn).1.reconnectTimer = false :=
  ⟨rfl, rfl, rfl, rfl, rfl, rfl⟩

/-- C5 (amended): a close event — from CONNECTING or OPEN — marks the channel
disconnected, notifies the status surface, and schedules exactly one reconnect
after `RECONNECT_INTERVAL = 3000` ms when none is scheduled (none when one
already is); an error event marks the channel disconnected and notifies, but
schedules nothing — the reconnect is scheduled by the close event the
transport fires afterwards. -/
theorem c5_close_error_transitions (s : WSClientState)
    (h : s.ws = some ReadyState.conn ∨ s.ws = some ReadyState.opened) :
    RECONNECT_INTERVAL = 3000 ∧
    (onClose s).1.isConnected = false ∧
    (s.reconnectTimer = false →
      (onClose s).2 = [WSAction.notifyStatus false,
        WSAction.scheduleTimer RECONNECT_INTERVAL] ∧
      (onClose s).1.pendingTimers = s.pendingTimers + 1 ∧
      (onClose s).1.reconnectTimer = true) ∧
    (s.reconnectTimer = true →
      (onClose s).2 = [WSAction.notifyStatus false] ∧
      (onClose s).1.pendingTimers = s.pendingTimers) ∧
    (onError s).1.isConnected = false ∧
    (onError s).2 = [WSAction.notifyStatus false] ∧
    (onError s).1.pendingTimers = s.pendingTimers ∧
    (onError s).1.reconnectTimer = s.reconnectTimer := by
  refine ⟨rfl, ?_, ?_, ?_, rfl, rfl, rfl, rfl⟩
  · unfold onClose scheduleReconnect
    by_cases hr : s.reconnectTimer = true <;> simp [hr]
  · intro hr
    unfold onClose scheduleReconnect
    simp [hr]
  · intro hr
    unfold onClose scheduleReconnect
    simp [hr]

theorem c5_close_error_transitions_witness :
    (sConn.ws = some ReadyState.conn ∨ sConn.ws = some ReadyState.opened) ∧
    (RECONNECT_INTERVAL = 3000 ∧
     (onClose sConn).1.isConnected = false ∧
     (sConn.reconnectTimer = false →
       (onClose sConn).2 = [WSAction.notifyStatus false,
         WSAction.scheduleTimer RECONNECT_INTERVAL] ∧
       (onClose sConn).1.pendingTimers = sConn.pendingTimers + 1 ∧
       (onClose sConn).1.reconnectTimer = true) ∧
     (sConn.reconnectTimer = true →
       (onClose sConn).2 = [WSAction.notifyStatus false] ∧
       (onClose sConn).1.pendingTimers = sConn.pendingTimers) ∧
     (onError sConn).1.isConnected = false ∧
     (onError sConn).2 = [WSAction.notifyStatus false] ∧
     (onError sConn).1.pendingTimers = sConn.pendingTimers ∧
     (onError sConn).1.reconnectTimer = sConn.reconnectTimer) :=
  ⟨Or.inl rfl, c5_close_error_transitions sConn (Or.inl rfl)⟩

/-- C6: at every reachable state at most one reconnect timer is pending;
after any run of consecutive close events exactly one is pending; and a
pending timer is cancelled exactly by a successful open — no other handler
ever emits a cancellation. -/
theorem c6_single_reconnect_timer (s : WSClientState) (h : Reachable s) :
    s.pendingTimers ≤ 1 ∧
    (∀ n, (closeIter (n + 1) s).pendingTimers = 1 ∧
          (closeIter (n + 1) s).reconnectTimer = true) ∧
    ((WSAction.cancelTimer ∈ (onOpen s).2) ↔ s.reconnectTimer = true) ∧
    (s.reconnectTimer = true → (onOpen s).1.pendingTimers = 0 ∧
      (onOpen s).1.reconnectTimer = false) ∧
    (∀ f, WSAction.cancelTimer ∉ (connectWebSocket s f).2) ∧
    WSAction.cancelTimer ∉ (onClose s).2 ∧
    WSAction.cancelTimer ∉ (onError s).2 ∧
    (∀ f, WSAction.cancelTimer ∉ (onTimerFire s f).2) ∧
    (∀ fr, WSAction.cancelTimer ∉ (onMessage s fr).2) := by
  have hinv := timerInv_reachable h
  refine ⟨hinv.1, fun n => closeIter_single_timer n s hinv, ?_, ?_, ?_, ?_, ?_, ?_, ?_⟩
  · unfold onOpen
    by_cases hr : s.reconnectTimer = true <;> simp [hr]
  · intro hr
    have hp : s.pendingTimers = 1 := hinv.2.1 hr
    unfold onOpen
    simp [hr, hp]
  · intro f
    unfold connectWebSocket scheduleReconnect
    by_cases ho : s.ws = some ReadyState.opened <;> cases f <;>
      by_cases hr : s.reconnectTimer = true <;> simp [ho, hr]
  · unfold onClose scheduleReconnect
    by_cases hr : s.reconnectTimer = true <;> simp [hr]
  · simp [onError]
  · intro f
    unfold onTimerFire connectWebSocket scheduleReconnect
    cases f <;> by_cases ho : s.ws = some ReadyState.opened <;> simp [ho]
  · intro fr
    cases fr with
    | malformed => simp [onMessage]
    | wellFormed msg =>
      unfold onMessage
      by_cases he : errTruthy msg.errorField = true <;>
        by_cases ha : msg.ackField = true <;> simp [he, ha]

theorem c6_single_reconnect_timer_witness :
    Reachable initState ∧
    (initState.pendingTimers ≤ 1 ∧
     (∀ n, (closeIter (n + 1) initState).pendingTimers = 1 ∧
           (closeIter (n + 1) initState).reconnectTimer = true) ∧
     ((WSAction.cancelTimer ∈ (onOpen initState).2) ↔
        initState.reconnectTimer = true) ∧
     (initState.reconnectTimer = true → (onOpen initState).1.pendingTimers = 0 ∧
       (onOpen initState).1.reconnectTimer = false) ∧
     (∀ f, WSAction.cancelTimer ∉ (connectWebSocket initState f).2) ∧
     WSAction.cancelTimer ∉ (onClose initState).2 ∧
     WSAction.cancelTimer ∉ (onError initState).2 ∧
     (∀ f, WSAction.cancelTimer ∉ (onTimerFire initState f).2) ∧
     (∀ fr, WSAction.cancelTimer ∉ (onMessage initState fr).2)) :=
  ⟨Reachable.init, c6_single_reconnect_timer initState Reachable.init⟩

/-- C7 counterexample: `connectWebSocket` called while the socket is
CONNECTING is not a no-op — the guard only tests `readyState === OPEN`, so a
new underlying socket is constructed. -/
theorem c7_counterexample :
    sConn.ws = some ReadyState.conn ∧
    (connectWebSocket sConn false).2 = [WSAction.newSocket] ∧
    (connectWebSocket sConn false).2 ≠ [] := by
  have h2 : (connectWebSocket sConn false).2 = [WSAction.newSocket] := rfl
  refine ⟨rfl, h2, ?_⟩
  rw [h2]
  simp

/-- C7 (amended): `connect()` is a no-op exactly when the socket is OPEN;
called while CONNECTING it constructs a new underlying socket (replacing the
held handle, which stays in the CONNECTING state). -/
theorem c7_connect_noop_iff_open (s : WSClientState) (f : Bool) :
    (s.ws = some ReadyState.opened → connectWebSocket s f = (s, [])) ∧
    (s.ws = some ReadyState.conn →
      (connectWebSocket s false).1.ws = some ReadyState.conn ∧
      (connectWebSocket s false).2 = [WSAction.newSocket]) := by
  constructor
  · intro ho
    unfold connectWebSocket
    rw [if_pos ho]
  · intro hc
    have hne : ¬ s.ws = some ReadyState.opened := by
      rw [hc]
      simp
    unfold connectWebSocket
    rw [if_neg hne]
    simp

theorem c7_connect_noop_iff_open_witness :
    sOpen.ws = some ReadyState.opened ∧ connectWebSocket sOpen true = (sOpen, []) :=
  ⟨rfl, (c7_connect_noop_iff_open sOpen true).1 rfl⟩

/-- C8: a malformed inbound frame (unparseable payload) is discarded with a
logged error and has no other effect: the client state — rendered scene,
connection state, `lastData` — is unchanged and no dispatch occurs. -/
theorem c8_malformed_frame_no_effect (s : WSClientState) :
    onMessage s Frame.malformed = (s, [WSAction.logError]) ∧
    WSAction.dispatch ∉ (onMessage s Frame.malformed).2 := by
  refine ⟨rfl, ?_⟩
  show WSAction.dispatch ∉ [WSAction.logError]
  simp
